import Mathlib

/-!
Shallow embedding of the boba-seeker frontend search and filter core:
region classification, bounds math, the brand filter engine, and the
HomePage search controllers (the bounds-search variant and the
nearby-search variant), together with theorems settling the spec claims.
-/

namespace BobaSeeker

/-- Viewport bounds: four edges in decimal degrees, as in the MapBounds
interface of the frontend. -/
structure Bounds where
  minLat : ℚ
  maxLat : ℚ
  minLng : ℚ
  maxLng : ℚ
  deriving DecidableEq

/-- Shop record (fields relevant to the search core; remaining optional
display fields of the TS interface are omitted as inert). -/
structure Shop where
  id : Int
  name : String
  brand_id : Option Int
  latitude : ℚ
  longitude : ℚ
  deriving DecidableEq

/-- Brand record (fields relevant to the search core). -/
structure Brand where
  id : Int
  name : String
  deriving DecidableEq

/-- A search query issued to the data store: either a radius search
(getNearbyShops) or a rectangular search with optional server-side brand
filter (getShopsInBounds). -/
inductive Query where
  | nearby (lat lng radiusKm : ℚ)
  | inBounds (b : Bounds) (brandIds : Option (Finset Int))
  deriving DecidableEq

/-- Radius of a query; 0 for rectangular queries, which carry no radius. -/
def Query.radiusOf : Query → ℚ
  | .nearby _ _ r => r
  | .inBounds _ _ => 0

/-- detectRegion from HomePage: static bounding boxes tested in order,
first match wins, empty string when no box contains the point. -/
def detectRegion (lat lng : ℚ) : String :=
  if 21.5 ≤ lat ∧ lat ≤ 26.5 ∧ 119.5 ≤ lng ∧ lng ≤ 122.5 then "TW"
  else if 1.1 ≤ lat ∧ lat ≤ 1.5 ∧ 103.6 ≤ lng ∧ lng ≤ 104.1 then "SG"
  else if 24 ≤ lat ∧ lat ≤ 50 ∧ (-125 : ℚ) ≤ lng ∧ lng ≤ -66 then "US"
  else ""

/-- The first bounding box tested by detectRegion (Taiwan). -/
def inTWBox (lat lng : ℚ) : Prop :=
  21.5 ≤ lat ∧ lat ≤ 26.5 ∧ 119.5 ≤ lng ∧ lng ≤ 122.5

/-- Arithmetic midpoint of the box edges, as computed inline in
handleSearchArea: ((minLat + maxLat) / 2, (minLng + maxLng) / 2). -/
def centerOf (b : Bounds) : ℚ × ℚ :=
  ((b.minLat + b.maxLat) / 2, (b.minLng + b.maxLng) / 2)

/-- Half the latitude span times 111 km per degree, as computed inline in
handleSearchArea: latDiff = (maxLat - minLat) / 2; radiusKm = latDiff * 111. -/
def radiusKmOf (b : Bounds) : ℚ :=
  (b.maxLat - b.minLat) / 2 * 111

/-- Floor clamp, as in Math.max(radiusKm, 5). -/
def clampRadius (km minimum : ℚ) : ℚ :=
  max km minimum

/-- toggleBrandFilter on the Set of selected brand ids: delete when
present, add when absent. -/
def toggleBrandFilter (filters : Finset Int) (brandId : Int) : Finset Int :=
  if brandId ∈ filters then filters.erase brandId else insert brandId filters

/-- filteredShops as written in HomePage: empty selection returns the
input; otherwise keep shops satisfying the JS-truthiness test
(shop.brand_id && selectedBrands.includes(shop.brand_id)), under which
an absent brand_id and a brand_id of 0 are both falsy. -/
def filteredShops (shops : List Shop) (selectedBrands : List Int) : List Shop :=
  if selectedBrands.isEmpty then shops
  else shops.filter fun shop =>
    match shop.brand_id with
    | some b => (b != 0) && selectedBrands.contains b
    | none => false

/-- Reference filter following the words of the spec: shops whose
brand_id is present and is a member of the selection. -/
def filterSpec (shops : List Shop) (selectedBrands : List Int) : List Shop :=
  if selectedBrands.isEmpty then shops
  else shops.filter fun shop =>
    shop.brand_id.any fun b => selectedBrands.contains b

/-- Reference filter following the amended words: shops whose brand_id is
present, non-zero, and a member of the selection. -/
def filterSpecAmended (shops : List Shop) (selectedBrands : List Int) : List Shop :=
  if selectedBrands.isEmpty then shops
  else shops.filter fun shop =>
    shop.brand_id.any fun b => (b != 0) && selectedBrands.contains b

/-- State of the bounds-search HomePage variant (the one with hasSearched
and getShopsInBounds). Mirrors its useState slices. -/
structure V1State where
  shops : List Shop
  brands : List Brand
  brandFilters : Finset Int
  loading : Bool
  error : Option String
  hasSearched : Bool
  mapBounds : Option Bounds
  showSearchButton : Bool
  deriving DecidableEq

/-- Initial state of the bounds-search variant, per its useState defaults. -/
def v1Init : V1State :=
  { shops := [], brands := [], brandFilters := ∅, loading := false, error := none,
    hasSearched := false, mapBounds := none, showSearchButton := false }

/-- handleBoundsChange: record bounds; show the button only if a search
has already happened. -/
def v1HandleBoundsChange (s : V1State) (b : Bounds) : V1State :=
  { s with mapBounds := some b,
           showSearchButton := if s.hasSearched then true else s.showSearchButton }

/-- toggleBrandFilter handler: toggle the id; show the button only if a
search has already happened. -/
def v1ToggleBrand (s : V1State) (brandId : Int) : V1State :=
  { s with brandFilters := toggleBrandFilter s.brandFilters brandId,
           showSearchButton := if s.hasSearched then true else s.showSearchButton }

/-- Clear-all-filters handler. -/
def v1ClearFilters (s : V1State) : V1State :=
  { s with brandFilters := ∅,
           showSearchButton := if s.hasSearched then true else s.showSearchButton }

/-- brandIds argument passed to getShopsInBounds: the selection when
non-empty, undefined otherwise. -/
def v1BrandIdsParam (filters : Finset Int) : Option (Finset Int) :=
  if 0 < filters.card then some filters else none

/-- handleSearchArea up to its await: no-op without bounds; otherwise set
loading, clear the error, and issue the rectangular query. -/
def v1SearchAreaBegin (s : V1State) : V1State × Option Query :=
  match s.mapBounds with
  | none => (s, none)
  | some b =>
      ({ s with loading := true, error := none },
       some (Query.inBounds b (v1BrandIdsParam s.brandFilters)))

/-- handleSearchArea continuation on success: replace the result set,
hide the button, mark searched, stop loading. -/
def v1SearchOk (s : V1State) (results : List Shop) : V1State :=
  { s with shops := results, showSearchButton := false, hasSearched := true,
           loading := false }

/-- handleSearchArea catch branch: set the message, stop loading, touch
nothing else. -/
def v1SearchErr (s : V1State) : V1State :=
  { s with error := some "Failed to load shops. Make sure the backend is running.",
           loading := false }

/-- fetchBrands continuation on success. -/
def v1BrandsOk (s : V1State) (data : List Brand) : V1State :=
  { s with brands := data }

/-- fetchBrands catch branch: console.error only, no state change. -/
def v1BrandsErr (s : V1State) : V1State := s

/-- Events consumed by the bounds-search controller. Fetch completions
are separate events so interleavings of issue and response can be stated. -/
inductive V1Event where
  | boundsChanged (b : Bounds)
  | toggleBrand (brandId : Int)
  | clearAll
  | searchClick
  | searchOk (results : List Shop)
  | searchErr
  | brandsOk (data : List Brand)
  | brandsErr

/-- Transition function of the bounds-search controller. -/
def v1Step (s : V1State) : V1Event → V1State
  | .boundsChanged b => v1HandleBoundsChange s b
  | .toggleBrand i => v1ToggleBrand s i
  | .clearAll => v1ClearFilters s
  | .searchClick => (v1SearchAreaBegin s).1
  | .searchOk r => v1SearchOk s r
  | .searchErr => v1SearchErr s
  | .brandsOk d => v1BrandsOk s d
  | .brandsErr => v1BrandsErr s

/-- A run of the bounds-search controller from its initial state. -/
def v1Run (events : List V1Event) : V1State :=
  events.foldl v1Step v1Init

/-- The rendered Search This Area affordance:
mapBounds !== null && (showSearchButton || !hasSearched). -/
def v1Visible (s : V1State) : Bool :=
  s.mapBounds.isSome && (s.showSearchButton || !s.hasSearched)

/-- State of the nearby-search HomePage variant (geolocation fallback,
getNearbyShops). fetchesCompleted is a ghost counter of completed shop
fetches, recording history without affecting behavior. -/
structure V2State where
  shops : List Shop
  brands : List Brand
  selectedBrands : List Int
  loading : Bool
  error : Option String
  mapBounds : Option Bounds
  showSearchButton : Bool
  fetchesCompleted : Nat
  deriving DecidableEq

/-- Initial state of the nearby-search variant, per its useState defaults. -/
def v2Init : V2State :=
  { shops := [], brands := [], selectedBrands := [], loading := true, error := none,
    mapBounds := none, showSearchButton := false, fetchesCompleted := 0 }

/-- The fixed fallback coordinate (Taipei). -/
def defaultCenter : ℚ × ℚ := (25.03, 121.5)

/-- loadNearbyShops up to its await: set loading, clear the error, issue
the 10 km radius query at the given center. -/
def v2LoadNearbyBegin (s : V2State) (lat lng : ℚ) : V2State × Query :=
  ({ s with loading := true, error := none }, Query.nearby lat lng 10)

/-- Geolocation denial or timeout: fall back to the fixed coordinate
silently and load nearby shops there. -/
def v2GeoDenied (s : V2State) : V2State × Query :=
  v2LoadNearbyBegin s defaultCenter.1 defaultCenter.2

/-- Shop-fetch success continuation: replace the result set, stop
loading; the ghost counter records the completion. -/
def v2NearbyOk (s : V2State) (data : List Shop) : V2State :=
  { s with shops := data, loading := false,
           fetchesCompleted := s.fetchesCompleted + 1 }

/-- loadNearbyShops catch branch. -/
def v2NearbyErr (s : V2State) : V2State :=
  { s with error := some "Failed to load shops.", loading := false }

/-- handleMapMove: record bounds and show the button. -/
def v2HandleMapMove (s : V2State) (b : Bounds) : V2State :=
  { s with mapBounds := some b, showSearchButton := true }

/-- The query derived by handleSearchArea from the current bounds:
center of the box, radius Math.max(latDiff * 111, 5). -/
def v2AreaQuery (b : Bounds) : Query :=
  Query.nearby ((b.minLat + b.maxLat) / 2) ((b.minLng + b.maxLng) / 2)
    (max ((b.maxLat - b.minLat) / 2 * 111) 5)

/-- handleSearchArea up to its await: no-op without bounds; otherwise set
loading, hide the button, issue the derived radius query. -/
def v2SearchAreaBegin (s : V2State) : V2State × Option Query :=
  match s.mapBounds with
  | none => (s, none)
  | some b => ({ s with loading := true, showSearchButton := false },
               some (v2AreaQuery b))

/-- handleSearchArea catch branch. -/
def v2SearchErr (s : V2State) : V2State :=
  { s with error := some "Failed to search this area.", loading := false }

/-- Whether a shop search has completed, read off the ghost counter. -/
def v2HasSearched (s : V2State) : Bool :=
  decide (0 < s.fetchesCompleted)

/-- Fixed sample shop used in concrete runs. -/
def shopA : Shop :=
  { id := 1, name := "A", brand_id := none, latitude := 25, longitude := 121 }

/-- Sample shop whose brand id is 0, exercising the truthiness test. -/
def shopZero : Shop :=
  { id := 2, name := "Z", brand_id := some 0, latitude := 25, longitude := 121 }

/-- Fixed sample bounds used in concrete runs. -/
def b0 : Bounds :=
  { minLat := 25, maxLat := 26, minLng := 121, maxLng := 122 }

/-- C1 counterexample: issue two searches, apply the second response and
then the late first response; the result set reverts to the stale data,
so the state does not stay unchanged. -/
theorem c1_counterexample :
    (v1Run [V1Event.boundsChanged b0, V1Event.searchClick, V1Event.searchClick,
            V1Event.searchOk [shopA], V1Event.searchOk []]).shops = [] ∧
    (v1Run [V1Event.boundsChanged b0, V1Event.searchClick, V1Event.searchClick,
            V1Event.searchOk [shopA]]).shops = [shopA] ∧
    ([] : List Shop) ≠ [shopA] :=
  ⟨rfl, rfl, by decide⟩

/-- C1 (amended): the controller keeps no request token and discards
nothing; every arriving search response unconditionally replaces the
result set, so the response applied last wins even when stale. -/
theorem c1_last_write_wins (s : V1State) (r : List Shop) :
    (v1Step s (V1Event.searchOk r)).shops = r := rfl

/-- C2 counterexample: a shop whose brand id is 0 is dropped by the code
under the JS truthiness test although the selection contains 0, while the
reference filter of the spec keeps it. -/
theorem c2_counterexample :
    filteredShops [shopZero] [0] = [] ∧ filterSpec [shopZero] [0] = [shopZero] :=
  ⟨rfl, rfl⟩

/-- C2 (amended): empty selection returns the input unchanged; the result
is always an order-preserving subsequence of the input; and the filter
equals the reference that keeps exactly the shops whose brand id is
present, non-zero, and a member of the selection. -/
theorem c2_filter_correct (shops : List Shop) (selectedBrands : List Int) :
    (selectedBrands = [] → filteredShops shops selectedBrands = shops) ∧
    List.Sublist (filteredShops shops selectedBrands) shops ∧
    filteredShops shops selectedBrands = filterSpecAmended shops selectedBrands := by
  refine ⟨?_, ?_, ?_⟩
  · intro h
    simp [filteredShops, h]
  · unfold filteredShops
    by_cases h : selectedBrands.isEmpty
    · simp [h]
    · simp only [h, if_false, Bool.false_eq_true]
      exact List.filter_sublist _
  · unfold filteredShops filterSpecAmended
    by_cases h : selectedBrands.isEmpty
    · simp [h]
    · simp only [h, if_false, Bool.false_eq_true]
      congr 1
      funext shop
      cases shop.brand_id <;> rfl

/-- C2 witness: the amended theorem applied at a concrete list with the
empty selection. -/
theorem c2_filter_correct_witness :
    filteredShops [shopA] [] = [shopA] ∧
    filteredShops [shopA] [] = filterSpecAmended [shopA] [] :=
  ⟨(c2_filter_correct [shopA] []).1 rfl, (c2_filter_correct [shopA] []).2.2⟩

/-- Flag invariant of the bounds-search controller: the showSearchButton
state is never set before the first search completes. -/
def v1FlagInv (s : V1State) : Prop :=
  s.hasSearched = false → s.showSearchButton = false

lemma v1FlagInv_step (s : V1State) (e : V1Event) (h : v1FlagInv s) :
    v1FlagInv (v1Step s e) := by
  unfold v1FlagInv at h ⊢
  cases e with
  | boundsChanged b =>
      intro hf
      simp only [v1Step, v1HandleBoundsChange] at hf ⊢
      simp [hf, h hf]
  | toggleBrand i =>
      intro hf
      simp only [v1Step, v1ToggleBrand] at hf ⊢
      simp [hf, h hf]
  | clearAll =>
      intro hf
      simp only [v1Step, v1ClearFilters] at hf ⊢
      simp [hf, h hf]
  | searchClick =>
      cases hm : s.mapBounds with
      | none =>
          intro hf
          simp only [v1Step, v1SearchAreaBegin, hm] at hf ⊢
          exact h hf
      | some b =>
          intro hf
          simp only [v1Step, v1SearchAreaBegin, hm] at hf ⊢
          exact h hf
  | searchOk r => intro _; rfl
  | searchErr => exact h
  | brandsOk d => exact h
  | brandsErr => exact h

lemma v1Run_flagInv (events : List V1Event) : v1FlagInv (v1Run events) := by
  have main : ∀ (es : List V1Event) (s : V1State),
      v1FlagInv s → v1FlagInv (es.foldl v1Step s) := by
    intro es
    induction es with
    | nil => intro s h; exact h
    | cons e rest ih => intro s h; exact ih (v1Step s e) (v1FlagInv_step s e h)
  exact main events v1Init (fun _ => rfl)

/-- C3 (amended): in every reachable state of the bounds-search
controller, the showSearchButton flag is never set before the first
search completes, yet the rendered affordance is visible exactly when
bounds are known (the button is how the first search is issued); after
the first search, a viewport change or a filter toggle makes the button
visible, and a successful search completion clears it. -/
theorem c3_affordance (events : List V1Event) :
    ((v1Run events).hasSearched = false → (v1Run events).showSearchButton = false) ∧
    ((v1Run events).hasSearched = false →
      v1Visible (v1Run events) = (v1Run events).mapBounds.isSome) ∧
    (∀ b, (v1Run events).hasSearched = true →
      (v1Step (v1Run events) (V1Event.boundsChanged b)).showSearchButton = true) ∧
    (∀ i, (v1Run events).hasSearched = true →
      (v1Step (v1Run events) (V1Event.toggleBrand i)).showSearchButton = true) ∧
    (∀ r, (v1Step (v1Run events) (V1Event.searchOk r)).showSearchButton = false) := by
  have hinv := v1Run_flagInv events
  refine ⟨hinv, ?_, ?_, ?_, fun r => rfl⟩
  · intro hf
    simp [v1Visible, hinv hf, hf]
  · intro b hs
    simp [v1Step, v1HandleBoundsChange, hs]
  · intro i hs
    simp [v1Step, v1ToggleBrand, hs]

/-- C3 counterexample: after a user pan and before any search, the
rendered affordance is already visible (the claim says it never is). -/
theorem c3_counterexample :
    v1Visible (v1Run [V1Event.boundsChanged b0]) = true ∧
    (v1Run [V1Event.boundsChanged b0]).hasSearched = false :=
  ⟨rfl, rfl⟩

/-- C3 witness: the amended theorem applied at concrete runs before and
after a first search. -/
theorem c3_affordance_witness :
    (v1Run [V1Event.boundsChanged b0]).showSearchButton = false ∧
    (v1Step (v1Run [V1Event.boundsChanged b0, V1Event.searchClick, V1Event.searchOk []])
      (V1Event.boundsChanged b0)).showSearchButton = true :=
  ⟨(c3_affordance [V1Event.boundsChanged b0]).1 rfl,
   (c3_affordance [V1Event.boundsChanged b0, V1Event.searchClick,
      V1Event.searchOk []]).2.2.1 b0 rfl⟩

/-- C4: detectRegion is a total function into the enumerated codes plus
the empty string, and the first matching box (Taiwan, tested first) wins. -/
theorem c4_classify_total (lat lng : ℚ) :
    (detectRegion lat lng = "TW" ∨ detectRegion lat lng = "SG" ∨
     detectRegion lat lng = "US" ∨ detectRegion lat lng = "") ∧
    (inTWBox lat lng → detectRegion lat lng = "TW") := by
  unfold detectRegion inTWBox
  split_ifs with h1 h2 h3 <;> simp_all

/-- C4 witness: the theorem applied at the Taipei default coordinate. -/
theorem c4_classify_total_witness : detectRegion 25.03 121.5 = "TW" :=
  (c4_classify_total 25.03 121.5).2 (by norm_num [inTWBox])

/-- C5: pan after a completed search shows the affordance; confirming
with bounds present issues the rectangular inBounds query for exactly
those bounds, and a successful completion clears the affordance. -/
theorem c5_search_area_scenario (s : V1State) (b : Bounds) (r : List Shop)
    (h : s.hasSearched = true) :
    v1Visible (v1Step s (V1Event.boundsChanged b)) = true ∧
    (v1SearchAreaBegin (v1Step s (V1Event.boundsChanged b))).2 =
      some (Query.inBounds b (v1BrandIdsParam s.brandFilters)) ∧
    (v1Step (v1Step (v1Step s (V1Event.boundsChanged b)) V1Event.searchClick)
      (V1Event.searchOk r)).showSearchButton = false := by
  refine ⟨?_, rfl, rfl⟩
  simp [v1Visible, v1Step, v1HandleBoundsChange, h]

/-- C5 witness: the scenario run from a concrete searched state. -/
theorem c5_search_area_scenario_witness :
    v1Visible (v1Step (v1Run [V1Event.boundsChanged b0, V1Event.searchClick,
      V1Event.searchOk []]) (V1Event.boundsChanged b0)) = true :=
  (c5_search_area_scenario
    (v1Run [V1Event.boundsChanged b0, V1Event.searchClick, V1Event.searchOk []])
    b0 [] rfl).1

/-- C6: the radius of the area-search query equals half the latitude span
times 111 km clamped to a 5 km floor, hence it is always at least 5 km. -/
theorem c6_radius_clamped (b : Bounds) (h : b.minLat ≤ b.maxLat) :
    v2AreaQuery b =
      Query.nearby (centerOf b).1 (centerOf b).2 (clampRadius (radiusKmOf b) 5) ∧
    5 ≤ (v2AreaQuery b).radiusOf :=
  ⟨rfl, le_max_right _ _⟩

/-- C6 witness: the theorem applied at concrete bounds. -/
theorem c6_radius_clamped_witness : 5 ≤ (v2AreaQuery b0).radiusOf :=
  (c6_radius_clamped b0 (by norm_num [b0])).2

/-- C7: the computed center lies within the box and the derived radius is
nonnegative. -/
theorem c7_center_in_bounds (b : Bounds) (h1 : b.minLat ≤ b.maxLat)
    (h2 : b.minLng ≤ b.maxLng) :
    b.minLat ≤ (centerOf b).1 ∧ (centerOf b).1 ≤ b.maxLat ∧
    b.minLng ≤ (centerOf b).2 ∧ (centerOf b).2 ≤ b.maxLng ∧
    0 ≤ radiusKmOf b := by
  simp only [centerOf, radiusKmOf]
  refine ⟨by linarith, by linarith, by linarith, by linarith, by linarith⟩

/-- C7 witness: the theorem applied at concrete bounds. -/
theorem c7_center_in_bounds_witness :
    b0.minLat ≤ (centerOf b0).1 ∧ (centerOf b0).1 ≤ b0.maxLat ∧
    b0.minLng ≤ (centerOf b0).2 ∧ (centerOf b0).2 ≤ b0.maxLng ∧
    0 ≤ radiusKmOf b0 :=
  c7_center_in_bounds b0 (by norm_num [b0]) (by norm_num [b0])

/-- C8: geolocation denial falls back silently to (25.03, 121.5), issues
a 10 km nearby query there, and after its completion a search has
happened, no error is shown, and the affordance is hidden. -/
theorem c8_geo_fallback (r : List Shop) :
    (v2GeoDenied v2Init).2 = Query.nearby 25.03 121.5 10 ∧
    (v2GeoDenied v2Init).1.error = none ∧
    (v2NearbyOk (v2GeoDenied v2Init).1 r).error = none ∧
    v2HasSearched (v2NearbyOk (v2GeoDenied v2Init).1 r) = true ∧
    (v2NearbyOk (v2GeoDenied v2Init).1 r).showSearchButton = false :=
  ⟨rfl, rfl, rfl, rfl, rfl⟩

/-- C9 counterexample: a failing brand-catalog fetch leaves the state
untouched and sets no user-visible message, contradicting the claim for
that fetch. -/
theorem c9_counterexample :
    v1BrandsErr v1Init = v1Init ∧ (v1BrandsErr v1Init).error = none :=
  ⟨rfl, rfl⟩

/-- C9 (amended): every failing shop fetch sets a user-visible message
and leaves the result set, filters, flags and bounds intact, while the
brand-catalog fetch fails silently with no state change at all. -/
theorem c9_failure_preserves_state (s : V1State) (t : V2State) :
    (v1SearchErr s).shops = s.shops ∧
    (v1SearchErr s).brandFilters = s.brandFilters ∧
    (v1SearchErr s).hasSearched = s.hasSearched ∧
    (v1SearchErr s).showSearchButton = s.showSearchButton ∧
    (v1SearchErr s).mapBounds = s.mapBounds ∧
    (v1SearchErr s).error.isSome = true ∧
    v1BrandsErr s = s ∧
    (v2NearbyErr t).shops = t.shops ∧
    (v2NearbyErr t).error.isSome = true ∧
    (v2SearchErr t).shops = t.shops ∧
    (v2SearchErr t).error.isSome = true :=
  ⟨rfl, rfl, rfl, rfl, rfl, rfl, rfl, rfl, rfl, rfl, rfl⟩

/-- C10: the brand toggle is an involution on the selection set, and one
toggle flips membership of the toggled id. -/
theorem c10_toggle_involution (s : Finset Int) (b : Int) :
    toggleBrandFilter (toggleBrandFilter s b) b = s ∧
    (b ∈ toggleBrandFilter s b ↔ b ∉ s) := by
  unfold toggleBrandFilter
  by_cases h : b ∈ s
  · have h1 : b ∉ s.erase b := Finset.not_mem_erase b s
    simp [h, h1, Finset.insert_erase h]
  · have h1 : b ∈ insert b s := Finset.mem_insert_self b s
    simp [h, h1, Finset.erase_insert h]

end BobaSeeker
